import Mathlib

/-!
Shallow embedding of the Salesforce OAuth/PKCE integration
(utils/pkce.js, utils/salesforce.js, db.js).

Bytes are modelled as `Nat` (< 256 where it matters), timestamps as `Nat`
milliseconds, the JS `Map` of the verifier store as an association list with
unique keys, and the single Postgres table as a list of rows plus a SERIAL
counter.  HTTP responses are supplied by the environment as explicit inputs.
-/

namespace Actabl

/-! ## base64url encoding (utils/pkce.js: base64urlEncode, generateCodeVerifier) -/

/-- The standard base64 alphabet used by Buffer.toString base64. -/
def base64Alphabet : List Char :=
  "ABCDEFGHIJKLMNOPQRSTUVWXYZabcdefghijklmnopqrstuvwxyz0123456789+/".toList

/-- Character of the base64 alphabet at a 6-bit index; masking to 6 bits is
done here with a mod 64, matching the bit-level extraction on bytes. -/
def b64char (n : Nat) : Char := base64Alphabet.getD (n % 64) 'A'

/-- Standard base64 of a byte list, three bytes at a time, with trailing
padding characters, as produced by Buffer.toString base64. -/
def base64Chunks : List Nat → List Char
  | b1 :: b2 :: b3 :: rest =>
      let n := b1 * 65536 + b2 * 256 + b3
      b64char (n / 262144) :: b64char (n / 4096) :: b64char (n / 64) ::
        b64char n :: base64Chunks rest
  | [b1, b2] => [b64char (b1 / 4), b64char (b1 * 16 + b2 / 16), b64char (b2 * 4), '=']
  | [b1] => [b64char (b1 / 4), b64char (b1 * 16), '=', '=']
  | [] => []

/-- Replacement step of base64urlEncode: plus becomes dash, slash becomes
underscore, everything else is unchanged. -/
def urlSafeSubst (c : Char) : Char :=
  if c = '+' then '-' else if c = '/' then '_' else c

/-- base64urlEncode from utils/pkce.js: standard base64, then the two
character replacements, then all padding characters removed. -/
def base64urlEncode (bytes : List Nat) : List Char :=
  ((base64Chunks bytes).map urlSafeSubst).filter (fun c => !(c == '='))

/-- Membership in the URL-safe base64 alphabet: letters, digits, dash,
underscore. -/
def urlSafeChar (c : Char) : Bool :=
  ('A' ≤ c && c ≤ 'Z') || ('a' ≤ c && c ≤ 'z') || ('0' ≤ c && c ≤ '9') ||
    c == '-' || c == '_'

/-- URL-safe and none of the three characters base64url must never emit. -/
def urlSafeOnly (c : Char) : Bool :=
  urlSafeChar c && !(c == '+') && !(c == '/') && !(c == '=')

theorem urlSafeOnly_subst_b64char (n : Nat) :
    urlSafeOnly (urlSafeSubst (b64char n)) = true := by
  have hlt : n % 64 < 64 := Nat.mod_lt _ (by norm_num)
  have hall : ((List.range 64).all
      (fun k => urlSafeOnly (urlSafeSubst (base64Alphabet.getD k 'A')))) = true := by
    decide
  have hmem : n % 64 ∈ List.range 64 := List.mem_range.mpr hlt
  exact List.all_eq_true.mp hall _ hmem

theorem subst_b64char_ne_pad (n : Nat) :
    (urlSafeSubst (b64char n) == '=') = false := by
  have h := urlSafeOnly_subst_b64char n
  simp only [urlSafeOnly, Bool.and_eq_true, Bool.not_eq_true'] at h
  exact h.2

theorem subst_pad : urlSafeSubst '=' = '=' := by decide

/-- Custom induction principle following the three-bytes-at-a-time recursion
of base64Chunks. -/
theorem base64Chunks_ind (P : List Nat → Prop) (h0 : P []) (h1 : ∀ b, P [b])
    (h2 : ∀ b c, P [b, c])
    (h3 : ∀ b c d rest, P rest → P (b :: c :: d :: rest)) : ∀ l, P l
  | [] => h0
  | [b] => h1 b
  | [b, c] => h2 b c
  | b :: c :: d :: rest => h3 b c d rest (base64Chunks_ind P h0 h1 h2 h3 rest)

theorem base64urlEncode_length (l : List Nat) :
    (base64urlEncode l).length = (4 * l.length + 2) / 3 := by
  induction l using base64Chunks_ind with
  | h0 => rfl
  | h1 b => simp [base64urlEncode, base64Chunks, subst_b64char_ne_pad, subst_pad]
  | h2 b c => simp [base64urlEncode, base64Chunks, subst_b64char_ne_pad, subst_pad]
  | h3 b c d rest ih =>
      have hstep : (base64urlEncode (b :: c :: d :: rest)).length =
          4 + (base64urlEncode rest).length := by
        simp [base64urlEncode, base64Chunks, subst_b64char_ne_pad]
        omega
      rw [hstep, ih]
      simp only [List.length_cons]
      omega

theorem base64urlEncode_all (l : List Nat) :
    (base64urlEncode l).all urlSafeOnly = true := by
  induction l using base64Chunks_ind with
  | h0 => rfl
  | h1 b =>
      simp [base64urlEncode, base64Chunks, subst_b64char_ne_pad, subst_pad,
        urlSafeOnly_subst_b64char]
  | h2 b c =>
      simp [base64urlEncode, base64Chunks, subst_b64char_ne_pad, subst_pad,
        urlSafeOnly_subst_b64char]
  | h3 b c d rest ih =>
      simp only [base64urlEncode, base64Chunks, List.map_cons, List.filter_cons,
        subst_b64char_ne_pad, Bool.not_false, if_true, List.all_cons,
        urlSafeOnly_subst_b64char, Bool.true_and]
      exact ih

/-! ## Verifier store (utils/pkce.js: storeVerifier, getVerifier,
cleanupExpiredVerifiers) -/

/-- Value stored in the verifier map: the code verifier and its creation
timestamp in milliseconds. -/
structure VerifierEntry where
  verifier : String
  createdAt : Nat
  deriving DecidableEq

/-- The JS Map from state to entry, as an association list with unique keys
(maintained by the operations below; insertion order is not significant to
any observation made here). -/
abbrev VStore := List (String × VerifierEntry)

/-- VERIFIER_TTL, thirty minutes in milliseconds. -/
def VERIFIER_TTL : Nat := 30 * 60 * 1000

/-- Map.set: bind k to e, replacing any previous binding for k. -/
def mapSet (store : VStore) (k : String) (e : VerifierEntry) : VStore :=
  (k, e) :: store.filter (fun p => !(p.1 == k))

/-- Map.delete: drop the binding for k. -/
def mapDelete (store : VStore) (k : String) : VStore :=
  store.filter (fun p => !(p.1 == k))

/-- cleanupExpiredVerifiers: drop every entry strictly older than the TTL at
time now. -/
def cleanupExpiredVerifiers (now : Nat) (store : VStore) : VStore :=
  store.filter (fun p => !(decide (now - p.2.createdAt > VERIFIER_TTL)))

/-- storeVerifier: sweep expired entries, then insert the new one stamped
with the current time. -/
def storeVerifier (now : Nat) (store : VStore) (state verifier : String) :
    VStore :=
  mapSet (cleanupExpiredVerifiers now store) state
    { verifier := verifier, createdAt := now }

/-- getVerifier: look the state up; if absent return none; otherwise delete
the entry first, then return none if it is older than the TTL and the
verifier otherwise.  The pair is (returned value, store after the call). -/
def getVerifier (now : Nat) (store : VStore) (state : String) :
    Option String × VStore :=
  match store.lookup state with
  | none => (none, store)
  | some entry =>
      let store2 := mapDelete store state
      if now - entry.createdAt > VERIFIER_TTL then (none, store2)
      else (some entry.verifier, store2)

theorem lookup_mapDelete (store : VStore) (k : String) :
    (mapDelete store k).lookup k = none := by
  induction store with
  | nil => rfl
  | cons p rest ih =>
      obtain ⟨k1, e1⟩ := p
      by_cases h : k1 = k
      · simpa [mapDelete, List.filter_cons, h] using ih
      · have hk : (k == k1) = false := beq_eq_false_iff_ne.mpr (Ne.symm h)
        have hk2 : (k1 == k) = false := beq_eq_false_iff_ne.mpr h
        simp only [mapDelete, List.filter_cons, hk2, Bool.not_false, if_true]
        simp only [List.lookup, hk]
        exact ih

/-! ## Credential store (db.js: storeTokens, getTokens, updateAccessToken) -/

/-- One row of the salesforce_tokens table. -/
structure TokenRow where
  id : Nat
  access_token : String
  refresh_token : String
  instance_url : String
  created_at : Nat
  updated_at : Nat
  deriving DecidableEq

/-- Database state: the rows of salesforce_tokens plus the SERIAL counter
that supplies the next id (not reset by DELETE). -/
structure Db where
  rows : List TokenRow
  nextId : Nat
  deriving DecidableEq

/-- Token object returned by getTokens. -/
structure Tokens where
  accessToken : String
  refreshToken : String
  instanceUrl : String
  id : Nat
  deriving DecidableEq

def rowToTokens (r : TokenRow) : Tokens :=
  { accessToken := r.access_token, refreshToken := r.refresh_token,
    instanceUrl := r.instance_url, id := r.id }

/-- Row with the greatest id (ORDER BY id DESC LIMIT 1); ids are unique in
reachable states, so tie-breaking is immaterial. -/
def bestRow : List TokenRow → Option TokenRow
  | [] => none
  | r :: rest =>
      match bestRow rest with
      | none => some r
      | some b => if b.id > r.id then some b else some r

/-- getTokens: the most recently inserted row, projected to a token object,
or none when the table is empty. -/
def getTokens (db : Db) : Option Tokens := (bestRow db.rows).map rowToTokens

/-- storeTokens: DELETE FROM salesforce_tokens, then INSERT the new row with
both timestamps defaulted to now, RETURNING id. -/
def storeTokens (db : Db) (accessToken refreshToken instanceUrl : String)
    (now : Nat) : Db × Nat :=
  let newRow : TokenRow :=
    { id := db.nextId, access_token := accessToken,
      refresh_token := refreshToken, instance_url := instanceUrl,
      created_at := now, updated_at := now }
  ({ rows := [newRow], nextId := db.nextId + 1 }, db.nextId)

/-- updateAccessToken: UPDATE salesforce_tokens SET access_token, updated_at
WHERE id matches. -/
def updateAccessToken (db : Db) (id : Nat) (newAccessToken : String)
    (now : Nat) : Db :=
  { db with
    rows := db.rows.map (fun r =>
      if r.id = id then
        { r with access_token := newAccessToken, updated_at := now }
      else r) }

/-- deleteTokens: DELETE FROM salesforce_tokens. -/
def deleteTokens (db : Db) : Db := { db with rows := [] }

theorem bestRow_map (f : TokenRow → TokenRow) (hf : ∀ r, (f r).id = r.id)
    (l : List TokenRow) : bestRow (l.map f) = (bestRow l).map f := by
  induction l with
  | nil => rfl
  | cons r rest ih =>
      simp only [List.map_cons, bestRow, ih]
      cases bestRow rest with
      | none => rfl
      | some b =>
          simp only [Option.map_some', hf]
          by_cases h : b.id > r.id <;> simp [h]

theorem getTokens_updateAccessToken (db : Db) (id : Nat) (tok : String)
    (now : Nat) :
    getTokens (updateAccessToken db id tok now) =
      (getTokens db).map (fun t =>
        if t.id = id then { t with accessToken := tok } else t) := by
  unfold getTokens updateAccessToken
  rw [bestRow_map]
  · cases bestRow db.rows with
    | none => rfl
    | some r =>
        simp only [Option.map_some']
        by_cases h : r.id = id <;> simp [rowToTokens, h]
  · intro r
    by_cases h : r.id = id <;> simp [h]

/-! ## Token refresher and API gateway (utils/salesforce.js:
refreshAccessToken, salesforceApiCall).  The provider's responses are inputs:
the token endpoint's response is a record, and the instance API's responses
are indexed by fetch order.  JSON parsing and stringification of opaque
bodies are modelled as the identity on the carried string. -/

/-- Response of the OAuth token endpoint to the refresh POST.  An absent
instance_url field (or a falsy one) is modelled as none. -/
structure RefreshHttpResponse where
  ok : Bool
  access_token : String
  instance_url : Option String
  error_description : String
  deriving DecidableEq

/-- refreshAccessToken: read the stored tokens (error if none), POST the
refresh grant, error on a non-ok response, otherwise persist the new access
token via updateAccessToken and return the new accessToken together with the
response's instance_url, falling back to the stored one.  The result carries
the database after the call. -/
def refreshAccessToken (db : Db) (resp : RefreshHttpResponse) (now : Nat) :
    Except String (Db × String × String) :=
  match getTokens db with
  | none => .error "No tokens found in database"
  | some tokens =>
      if resp.ok then
        let db2 := updateAccessToken db tokens.id resp.access_token now
        .ok (db2, resp.access_token, resp.instance_url.getD tokens.instanceUrl)
      else .error ("Token refresh failed: " ++ resp.error_description)

/-- Response of a fetch against the instance API. -/
structure ApiResponse where
  status : Nat
  body : String
  deriving DecidableEq

/-- response.ok of fetch: status in the range 200 to 299. -/
def responseOk (r : ApiResponse) : Bool := 200 ≤ r.status && r.status < 300

/-- Outgoing request built by makeRequest inside salesforceApiCall. -/
structure ApiRequest where
  url : String
  method : String
  bearerToken : String
  body : Option String
  deriving DecidableEq

/-- makeRequest: bearer-authenticated request against instanceUrl ++
endpoint; the body is attached only when one was given and the method is
POST or PATCH. -/
def makeRequest (endpoint method : String) (body : Option String)
    (accessToken instanceUrl : String) : ApiRequest :=
  { url := instanceUrl ++ endpoint, method := method,
    bearerToken := accessToken,
    body := if body.isSome && (method == "POST" || method == "PATCH")
            then body else none }

/-- Final status check of salesforceApiCall: a non-ok response raises the
Salesforce API error with its status and body, an ok one returns the parsed
body. -/
def finishResponse (resp : ApiResponse) : Except String String :=
  if responseOk resp then .ok resp.body
  else .error ("Salesforce API error (" ++ toString resp.status ++ "): "
    ++ resp.body)

/-- Observable outcome of one salesforceApiCall: its result, the database
afterwards, every request issued to the instance API in order, and how many
times refreshAccessToken was invoked. -/
structure CallOutcome where
  result : Except String String
  db : Db
  requests : List ApiRequest
  refreshCount : Nat

/-- salesforceApiCall: fail fast when no tokens are stored; issue the first
request; on a 401 invoke refreshAccessToken once, re-read the tokens and
issue the request again; then apply the final status check to whichever
response is current.  fetchApi gives the instance API's response to the
n-th fetch.  A failure inside the refresh block (including the token re-read
coming back empty) is rethrown as a token-refresh failure. -/
def salesforceApiCall (db : Db) (fetchApi : Nat → ApiResponse)
    (renv : RefreshHttpResponse) (now : Nat)
    (endpoint method : String) (body : Option String) : CallOutcome :=
  match getTokens db with
  | none =>
      { result := .error "Not connected to Salesforce", db := db,
        requests := [], refreshCount := 0 }
  | some tokens =>
      let req1 := makeRequest endpoint method body tokens.accessToken
        tokens.instanceUrl
      let resp1 := fetchApi 0
      if resp1.status = 401 then
        match refreshAccessToken db renv now with
        | .error msg =>
            { result := .error ("Token refresh failed: " ++ msg), db := db,
              requests := [req1], refreshCount := 1 }
        | .ok (db2, _) =>
            match getTokens db2 with
            | none =>
                { result := .error "Token refresh failed: no tokens",
                  db := db2, requests := [req1], refreshCount := 1 }
            | some tokens2 =>
                let req2 := makeRequest endpoint method body
                  tokens2.accessToken tokens2.instanceUrl
                { result := finishResponse (fetchApi 1), db := db2,
                  requests := [req1, req2], refreshCount := 1 }
      else
        { result := finishResponse resp1, db := db,
          requests := [req1], refreshCount := 0 }

/-! ## Claim theorems -/

/-- Claim C4: a verifier stored under a state and taken again within the
thirty-minute TTL comes back exactly, and an immediately following second
take of the same state returns none — each state is consumed at most once. -/
theorem claim_C4_put_take_within_ttl (store : VStore) (s v : String)
    (t0 t1 : Nat) (h : t1 - t0 ≤ VERIFIER_TTL) :
    (getVerifier t1 (storeVerifier t0 store s v) s).1 = some v ∧
    (getVerifier t1 (getVerifier t1 (storeVerifier t0 store s v) s).2 s).1
      = none := by
  have hlk : (storeVerifier t0 store s v).lookup s =
      some { verifier := v, createdAt := t0 } := by
    simp [storeVerifier, mapSet, List.lookup]
  have hnotexp : ¬ (t1 - t0 > VERIFIER_TTL) := by omega
  constructor
  · simp [getVerifier, hlk, hnotexp]
  · have h2 : (getVerifier t1 (storeVerifier t0 store s v) s).2 =
        mapDelete (storeVerifier t0 store s v) s := by
      simp [getVerifier, hlk, hnotexp]
    rw [h2]
    simp [getVerifier, lookup_mapDelete]

/-- Claim C4 witness at a concrete store, state, verifier and pair of
times. -/
theorem claim_C4_witness :
    ((5 : Nat) - 0 ≤ VERIFIER_TTL) ∧
    ((getVerifier 5 (storeVerifier 0 [] "a" "ver") "a").1 = some "ver" ∧
     (getVerifier 5 (getVerifier 5 (storeVerifier 0 [] "a" "ver") "a").2
       "a").1 = none) :=
  ⟨by decide, claim_C4_put_take_within_ttl [] "a" "ver" 0 5 (by decide)⟩

/-- Claim C5: taking a state whose entry is older than the TTL returns none,
and the entry is nevertheless removed — the delete happens before the age
check, so the resulting store no longer binds the state. -/
theorem claim_C5_expired_take_purges (store : VStore) (s : String)
    (e : VerifierEntry) (now : Nat) (hmem : store.lookup s = some e)
    (hexp : now - e.createdAt > VERIFIER_TTL) :
    getVerifier now store s = (none, mapDelete store s) ∧
    (mapDelete store s).lookup s = none := by
  constructor
  · simp [getVerifier, hmem, hexp]
  · exact lookup_mapDelete store s

/-- Claim C5 witness at a concrete expired entry. -/
theorem claim_C5_witness :
    (([("a", ({ verifier := "ver", createdAt := 0 } : VerifierEntry))] :
        VStore).lookup "a" = some { verifier := "ver", createdAt := 0 }) ∧
    ((1800001 : Nat) - 0 > VERIFIER_TTL) ∧
    (getVerifier 1800001 [("a", { verifier := "ver", createdAt := 0 })] "a" =
      (none, mapDelete [("a", { verifier := "ver", createdAt := 0 })] "a") ∧
     (mapDelete ([("a", ({ verifier := "ver", createdAt := 0 } :
        VerifierEntry))] : VStore) "a").lookup "a" = none) :=
  ⟨by decide, by decide,
    claim_C5_expired_take_purges [("a", { verifier := "ver", createdAt := 0 })]
      "a" { verifier := "ver", createdAt := 0 } 1800001 (by decide) (by decide)⟩

/-- Claim C6: put sweeps everything older than the TTL and then inserts the
fresh entry, so immediately after any put no entry of the store is older
than the TTL. -/
theorem claim_C6_put_sweeps_expired (now : Nat) (store : VStore)
    (s v : String) :
    storeVerifier now store s v =
      mapSet (cleanupExpiredVerifiers now store) s
        { verifier := v, createdAt := now } ∧
    (storeVerifier now store s v).all
      (fun p => decide (now - p.2.createdAt ≤ VERIFIER_TTL)) = true := by
  refine ⟨rfl, ?_⟩
  rw [List.all_eq_true]
  intro p hp
  simp only [storeVerifier, mapSet, List.mem_cons] at hp
  rcases hp with rfl | hp
  · simp
  · have hp2 := List.mem_filter.mp hp
    have hp3 := List.mem_filter.mp hp2.1
    have hle : now - p.2.createdAt ≤ VERIFIER_TTL := by
      have := hp3.2
      simp only [Bool.not_eq_true', decide_eq_false_iff_not, not_lt] at this
      exact this
    simp [hle]

/-- Claim C7: replace clears the table and inserts a single row, so two
sequential replaces leave exactly one credential whose fields are the second
call's arguments. -/
theorem claim_C7_replace_singleton (db : Db) (a1 r1 u1 a2 r2 u2 : String)
    (t1 t2 : Nat) :
    ((storeTokens db a1 r1 u1 t1).1.rows.length = 1) ∧
    ((storeTokens (storeTokens db a1 r1 u1 t1).1 a2 r2 u2 t2).1.rows =
      [{ id := db.nextId + 1, access_token := a2, refresh_token := r2,
         instance_url := u2, created_at := t2, updated_at := t2 }]) ∧
    (getTokens (storeTokens (storeTokens db a1 r1 u1 t1).1 a2 r2 u2 t2).1 =
      some { accessToken := a2, refreshToken := r2, instanceUrl := u2,
             id := db.nextId + 1 }) :=
  ⟨rfl, rfl, rfl⟩

/-- Claim C8: updateAccessToken rewrites only the access token and the
updated_at timestamp of the row matching the id; every other field of that
row, and every other row, is unchanged, and no row is added or removed. -/
theorem claim_C8_update_access_token_frame (db : Db) (id : Nat)
    (tok : String) (now : Nat) (i : Nat) (r : TokenRow)
    (h : db.rows.get? i = some r) :
    (updateAccessToken db id tok now).rows.length = db.rows.length ∧
    ∃ r2, (updateAccessToken db id tok now).rows.get? i = some r2 ∧
      r2.id = r.id ∧ r2.refresh_token = r.refresh_token ∧
      r2.instance_url = r.instance_url ∧ r2.created_at = r.created_at ∧
      (r.id = id → r2.access_token = tok ∧ r2.updated_at = now) ∧
      (r.id ≠ id → r2 = r) := by
  refine ⟨by simp [updateAccessToken], ?_⟩
  have hmap : (updateAccessToken db id tok now).rows.get? i =
      (db.rows.get? i).map (fun r =>
        if r.id = id then { r with access_token := tok, updated_at := now }
        else r) := by
    simp [updateAccessToken, List.get?_map]
  by_cases hc : r.id = id
  · refine ⟨{ r with access_token := tok, updated_at := now }, ?_, rfl, rfl,
      rfl, rfl, fun _ => ⟨rfl, rfl⟩, fun hn => absurd hc hn⟩
    rw [hmap, h]
    simp [hc]
  · refine ⟨r, ?_, rfl, rfl, rfl, rfl, fun hcc => absurd hcc hc, fun _ => rfl⟩
    rw [hmap, h]
    simp [hc]

/-- Claim C8 witness: a two-row table, updating the first row. -/
theorem claim_C8_witness :
    ((Db.mk [TokenRow.mk 1 "a" "r" "u" 0 0, TokenRow.mk 2 "b" "s" "w" 0 0]
        3).rows.get? 0 = some (TokenRow.mk 1 "a" "r" "u" 0 0)) ∧
    ((updateAccessToken (Db.mk [TokenRow.mk 1 "a" "r" "u" 0 0,
        TokenRow.mk 2 "b" "s" "w" 0 0] 3) 1 "t2" 9).rows.length =
      (Db.mk [TokenRow.mk 1 "a" "r" "u" 0 0, TokenRow.mk 2 "b" "s" "w" 0 0]
        3).rows.length ∧
     ∃ r2, (updateAccessToken (Db.mk [TokenRow.mk 1 "a" "r" "u" 0 0,
        TokenRow.mk 2 "b" "s" "w" 0 0] 3) 1 "t2" 9).rows.get? 0 = some r2 ∧
      r2.id = (TokenRow.mk 1 "a" "r" "u" 0 0).id ∧
      r2.refresh_token = (TokenRow.mk 1 "a" "r" "u" 0 0).refresh_token ∧
      r2.instance_url = (TokenRow.mk 1 "a" "r" "u" 0 0).instance_url ∧
      r2.created_at = (TokenRow.mk 1 "a" "r" "u" 0 0).created_at ∧
      ((TokenRow.mk 1 "a" "r" "u" 0 0).id = 1 →
        r2.access_token = "t2" ∧ r2.updated_at = 9) ∧
      ((TokenRow.mk 1 "a" "r" "u" 0 0).id ≠ 1 →
        r2 = TokenRow.mk 1 "a" "r" "u" 0 0)) :=
  ⟨rfl, claim_C8_update_access_token_frame _ 1 "t2" 9 0 _ rfl⟩

/-- Claim C9: the base64url encoding of any 32-byte buffer is 43 characters
long and uses only the URL-safe alphabet — letters, digits, dash and
underscore — with no plus, slash or padding character. -/
theorem claim_C9_verifier_encoding (bytes : List Nat)
    (h : bytes.length = 32) :
    (base64urlEncode bytes).length = 43 ∧
    (base64urlEncode bytes).all urlSafeOnly = true := by
  refine ⟨?_, base64urlEncode_all bytes⟩
  rw [base64urlEncode_length, h]

/-- Claim C9 witness at the all-zero buffer. -/
theorem claim_C9_witness :
    ((List.replicate 32 0).length = 32) ∧
    ((base64urlEncode (List.replicate 32 0)).length = 43 ∧
     (base64urlEncode (List.replicate 32 0)).all urlSafeOnly = true) :=
  ⟨by decide, claim_C9_verifier_encoding (List.replicate 32 0) (by decide)⟩

theorem getTokens_after_refresh (db : Db) (renv : RefreshHttpResponse)
    (now : Nat) (tokens : Tokens) (htok : getTokens db = some tokens) :
    getTokens (updateAccessToken db tokens.id renv.access_token now) =
      some { tokens with accessToken := renv.access_token } := by
  rw [getTokens_updateAccessToken, htok]
  simp

/-- Shape of a salesforceApiCall whose first response is a 401 and whose
refresh succeeds: one refresh, tokens re-read, the original request reissued
with the refreshed access token, and the final check applied to the second
response. -/
theorem salesforceApiCall_401_refresh (db : Db) (fetchApi : Nat → ApiResponse)
    (renv : RefreshHttpResponse) (now : Nat) (endpoint method : String)
    (body : Option String) (tokens : Tokens)
    (htok : getTokens db = some tokens) (h401 : (fetchApi 0).status = 401)
    (hok : renv.ok = true) :
    salesforceApiCall db fetchApi renv now endpoint method body =
      { result := finishResponse (fetchApi 1),
        db := updateAccessToken db tokens.id renv.access_token now,
        requests := [makeRequest endpoint method body tokens.accessToken
            tokens.instanceUrl,
          makeRequest endpoint method body renv.access_token
            tokens.instanceUrl],
        refreshCount := 1 } := by
  have hdb2 := getTokens_after_refresh db renv now tokens htok
  simp [salesforceApiCall, htok, h401, refreshAccessToken, hok, hdb2]

/-- Claim C1 (amended): a successful refresh whose response carries an
instance URL persists only the new access token; the stored row keeps its
previous instance URL and refresh token, and the response's instance URL is
merely returned to the caller alongside the new access token. -/
theorem claim_C1_refresh_persists_access_token_only (db : Db)
    (renv : RefreshHttpResponse) (now : Nat) (tokens : Tokens)
    (htok : getTokens db = some tokens) (hok : renv.ok = true) :
    refreshAccessToken db renv now =
      .ok (updateAccessToken db tokens.id renv.access_token now,
           renv.access_token, renv.instance_url.getD tokens.instanceUrl) ∧
    getTokens (updateAccessToken db tokens.id renv.access_token now) =
      some { tokens with accessToken := renv.access_token } := by
  refine ⟨?_, getTokens_after_refresh db renv now tokens htok⟩
  simp [refreshAccessToken, htok, hok]

/-- Claim C1 counterexample: a successful refresh whose response carries a
new instance URL leaves the stored row's instance URL at its old value, so
the current credential does not hold the response's instance URL, refuting
the claim as stated. -/
theorem claim_C1_counterexample :
    (refreshAccessToken
        (Db.mk [TokenRow.mk 1 "oldAT" "RT" "https://old.example" 0 0] 2)
        (RefreshHttpResponse.mk true "newAT" (some "https://new.example") "")
        5 =
      .ok (Db.mk [TokenRow.mk 1 "newAT" "RT" "https://old.example" 0 5] 2,
           "newAT", "https://new.example")) ∧
    ((getTokens
        (Db.mk [TokenRow.mk 1 "newAT" "RT" "https://old.example" 0 5] 2)).map
      (fun t => t.instanceUrl) = some "https://old.example") ∧
    ("https://old.example" : String) ≠ "https://new.example" :=
  ⟨rfl, rfl, by decide⟩

/-- Claim C1 witness for the amended statement, at a concrete credential and
refresh response. -/
theorem claim_C1_witness :
    (getTokens (Db.mk [TokenRow.mk 1 "oldAT" "RT" "https://old.example" 0 0]
        2) = some (Tokens.mk "oldAT" "RT" "https://old.example" 1)) ∧
    ((RefreshHttpResponse.mk true "newAT" (some "https://new.example")
        "").ok = true) ∧
    (refreshAccessToken
        (Db.mk [TokenRow.mk 1 "oldAT" "RT" "https://old.example" 0 0] 2)
        (RefreshHttpResponse.mk true "newAT" (some "https://new.example") "")
        5 =
      .ok (updateAccessToken
            (Db.mk [TokenRow.mk 1 "oldAT" "RT" "https://old.example" 0 0] 2)
            (Tokens.mk "oldAT" "RT" "https://old.example" 1).id "newAT" 5,
          "newAT",
          (some "https://new.example").getD
            (Tokens.mk "oldAT" "RT" "https://old.example" 1).instanceUrl) ∧
     getTokens (updateAccessToken
        (Db.mk [TokenRow.mk 1 "oldAT" "RT" "https://old.example" 0 0] 2)
        (Tokens.mk "oldAT" "RT" "https://old.example" 1).id "newAT" 5) =
      some { Tokens.mk "oldAT" "RT" "https://old.example" 1 with
             accessToken := "newAT" }) :=
  ⟨rfl, rfl,
    claim_C1_refresh_persists_access_token_only _ _ 5
      (Tokens.mk "oldAT" "RT" "https://old.example" 1) rfl rfl⟩

/-- Claim C2: when the first response is a 401, the refresh succeeds and the
retried response is still not a success, the call fails with the Salesforce
API error carrying the retried response's status and body, and the refresher
ran exactly once. -/
theorem claim_C2_retry_failure_single_refresh (db : Db)
    (fetchApi : Nat → ApiResponse) (renv : RefreshHttpResponse) (now : Nat)
    (endpoint method : String) (body : Option String) (tokens : Tokens)
    (htok : getTokens db = some tokens) (h401 : (fetchApi 0).status = 401)
    (hok : renv.ok = true) (hfail : responseOk (fetchApi 1) = false) :
    (salesforceApiCall db fetchApi renv now endpoint method body).result =
      .error ("Salesforce API error (" ++ toString (fetchApi 1).status
        ++ "): " ++ (fetchApi 1).body) ∧
    (salesforceApiCall db fetchApi renv now endpoint method body).refreshCount
      = 1 := by
  rw [salesforceApiCall_401_refresh db fetchApi renv now endpoint method body
    tokens htok h401 hok]
  simp [finishResponse, hfail]

/-- Claim C2 witness: a 401 followed by a 401 after a successful refresh. -/
theorem claim_C2_witness :
    (getTokens (Db.mk [TokenRow.mk 1 "oldAT" "RT" "https://i.example" 0 0] 2)
      = some (Tokens.mk "oldAT" "RT" "https://i.example" 1)) ∧
    ((fun n => if n = 0 then ApiResponse.mk 401 "expired"
        else ApiResponse.mk 401 "revoked") 0).status = 401 ∧
    ((RefreshHttpResponse.mk true "newAT" none "").ok = true) ∧
    (responseOk ((fun n => if n = 0 then ApiResponse.mk 401 "expired"
        else ApiResponse.mk 401 "revoked") 1) = false) ∧
    ((salesforceApiCall
        (Db.mk [TokenRow.mk 1 "oldAT" "RT" "https://i.example" 0 0] 2)
        (fun n => if n = 0 then ApiResponse.mk 401 "expired"
          else ApiResponse.mk 401 "revoked")
        (RefreshHttpResponse.mk true "newAT" none "") 7 "/e" "GET"
        none).result =
      .error ("Salesforce API error (" ++ toString
        ((fun n => if n = 0 then ApiResponse.mk 401 "expired"
          else ApiResponse.mk 401 "revoked") 1).status ++ "): " ++
        ((fun n => if n = 0 then ApiResponse.mk 401 "expired"
          else ApiResponse.mk 401 "revoked") 1).body) ∧
     (salesforceApiCall
        (Db.mk [TokenRow.mk 1 "oldAT" "RT" "https://i.example" 0 0] 2)
        (fun n => if n = 0 then ApiResponse.mk 401 "expired"
          else ApiResponse.mk 401 "revoked")
        (RefreshHttpResponse.mk true "newAT" none "") 7 "/e" "GET"
        none).refreshCount = 1) :=
  ⟨rfl, rfl, rfl, rfl,
    claim_C2_retry_failure_single_refresh _ _ _ 7 "/e" "GET" none
      (Tokens.mk "oldAT" "RT" "https://i.example" 1) rfl rfl rfl rfl⟩

/-- Claim C3: when the first response is a 401, the refresh succeeds and the
retried response is a success, the refresher ran exactly once, the
credential was re-read before the retry — the second request bears the
refreshed access token — and the call returns the second response's body. -/
theorem claim_C3_retry_success_single_refresh (db : Db)
    (fetchApi : Nat → ApiResponse) (renv : RefreshHttpResponse) (now : Nat)
    (endpoint method : String) (body : Option String) (tokens : Tokens)
    (htok : getTokens db = some tokens) (h401 : (fetchApi 0).status = 401)
    (hok : renv.ok = true) (hsucc : responseOk (fetchApi 1) = true) :
    (salesforceApiCall db fetchApi renv now endpoint method body).result =
      .ok (fetchApi 1).body ∧
    (salesforceApiCall db fetchApi renv now endpoint method body).refreshCount
      = 1 ∧
    (salesforceApiCall db fetchApi renv now endpoint method body).requests =
      [makeRequest endpoint method body tokens.accessToken tokens.instanceUrl,
       makeRequest endpoint method body renv.access_token
         tokens.instanceUrl] := by
  rw [salesforceApiCall_401_refresh db fetchApi renv now endpoint method body
    tokens htok h401 hok]
  simp [finishResponse, hsucc]

/-- Claim C3 witness: a 401 followed by a 200 after a successful refresh. -/
theorem claim_C3_witness :
    (getTokens (Db.mk [TokenRow.mk 1 "oldAT" "RT" "https://i.example" 0 0] 2)
      = some (Tokens.mk "oldAT" "RT" "https://i.example" 1)) ∧
    ((fun n => if n = 0 then ApiResponse.mk 401 "expired"
        else ApiResponse.mk 200 "payload") 0).status = 401 ∧
    ((RefreshHttpResponse.mk true "newAT" none "").ok = true) ∧
    (responseOk ((fun n => if n = 0 then ApiResponse.mk 401 "expired"
        else ApiResponse.mk 200 "payload") 1) = true) ∧
    ((salesforceApiCall
        (Db.mk [TokenRow.mk 1 "oldAT" "RT" "https://i.example" 0 0] 2)
        (fun n => if n = 0 then ApiResponse.mk 401 "expired"
          else ApiResponse.mk 200 "payload")
        (RefreshHttpResponse.mk true "newAT" none "") 7 "/e" "GET"
        none).result = .ok ((fun n => if n = 0 then ApiResponse.mk 401
          "expired" else ApiResponse.mk 200 "payload") 1).body ∧
     (salesforceApiCall
        (Db.mk [TokenRow.mk 1 "oldAT" "RT" "https://i.example" 0 0] 2)
        (fun n => if n = 0 then ApiResponse.mk 401 "expired"
          else ApiResponse.mk 200 "payload")
        (RefreshHttpResponse.mk true "newAT" none "") 7 "/e" "GET"
        none).refreshCount = 1 ∧
     (salesforceApiCall
        (Db.mk [TokenRow.mk 1 "oldAT" "RT" "https://i.example" 0 0] 2)
        (fun n => if n = 0 then ApiResponse.mk 401 "expired"
          else ApiResponse.mk 200 "payload")
        (RefreshHttpResponse.mk true "newAT" none "") 7 "/e" "GET"
        none).requests =
      [makeRequest "/e" "GET" none
        (Tokens.mk "oldAT" "RT" "https://i.example" 1).accessToken
        (Tokens.mk "oldAT" "RT" "https://i.example" 1).instanceUrl,
       makeRequest "/e" "GET" none "newAT"
        (Tokens.mk "oldAT" "RT" "https://i.example" 1).instanceUrl]) :=
  ⟨rfl, rfl, rfl, rfl,
    claim_C3_retry_success_single_refresh _ _ _ 7 "/e" "GET" none
      (Tokens.mk "oldAT" "RT" "https://i.example" 1) rfl rfl rfl rfl⟩

theorem makeRequest_body_some (endpoint method : String) (b : String)
    (tok iu : String) :
    (makeRequest endpoint method (some b) tok iu).body =
      (if method = "POST" ∨ method = "PATCH" then some b else none) := by
  by_cases h1 : method = "POST"
  · simp [makeRequest, h1]
  · by_cases h2 : method = "PATCH"
    · simp [makeRequest, h1, h2]
    · simp [makeRequest, h1, h2]

/-- Claim C10: with a non-null body, every request a call issues — the first
attempt and the post-refresh retry alike — carries the body exactly when the
method is POST or PATCH, and no body for any other method. -/
theorem claim_C10_body_only_on_post_patch (db : Db)
    (fetchApi : Nat → ApiResponse) (renv : RefreshHttpResponse) (now : Nat)
    (endpoint method : String) (b : String) :
    ((salesforceApiCall db fetchApi renv now endpoint method
        (some b)).requests).all
      (fun r => r.body ==
        (if method = "POST" ∨ method = "PATCH" then some b else none))
      = true := by
  cases htok : getTokens db with
  | none => simp [salesforceApiCall, htok]
  | some tokens =>
      by_cases h401 : (fetchApi 0).status = 401
      · cases hr : refreshAccessToken db renv now with
        | error msg =>
            simp [salesforceApiCall, htok, h401, hr, makeRequest_body_some]
        | ok p =>
            obtain ⟨db2, rest⟩ := p
            cases hdb2 : getTokens db2 with
            | none =>
                simp [salesforceApiCall, htok, h401, hr, hdb2,
                  makeRequest_body_some]
            | some t2 =>
                simp [salesforceApiCall, htok, h401, hr, hdb2,
                  makeRequest_body_some]
      · simp [salesforceApiCall, htok, h401, makeRequest_body_some]

end Actabl
